import Mathlib

/-!
# JSON generalizer of the generic filter (filter/generic/generalizer/json.go)

A shallow embedding of `JsonGeneralizer.Generalize`, `JsonGeneralizer.Realize`
and `JsonGeneralizer.GetType`, followed by the properties established for them.

Go values of static type `interface{}` are `Option Value` (`none` is the nil
interface). The collaborators that live outside the file are arguments of the
embedded functions:

* `implementsObject` : which dynamic types satisfy the interface `hessian.Object`;
* `Marshal`, `decode` : the encoder and the decoder of `encoding/json`;
* `GetJavaName` : the type-name resolver `hessian2.GetJavaName`.
-/

namespace Generalizer

/-! ## Go runtime values and type descriptors -/

/-- The kinds of `reflect.Kind` that occur in the value universe below. -/
inductive Kind
  | String
  | Int
  | Struct
  | Interface
  | Ptr
  deriving DecidableEq, Repr

/-- Type descriptors (`reflect.Type`): the predeclared `string` and `int`, named
struct types whose fields are all of type `string` (given by the field names, in
declaration order), the empty interface type `interface{}` (`iface`), and
pointers to any of these, to any depth. A descriptor is a
finite term, so a type declared as a pointer to itself (`type P *P`), on which the
unwrapping loop of Realize would not end, is not among them. -/
inductive GoType
  | string
  | int
  | struct (name : String) (fields : List String)
  | iface
  | ptr (elem : GoType)
  deriving DecidableEq, Repr

namespace GoType

/-- The method `reflect.Type.Kind`. -/
def Kind : GoType → Generalizer.Kind
  | string => .String
  | int => .Int
  | struct _ _ => .Struct
  | iface => .Interface
  | ptr _ => .Ptr

/-- The method `reflect.Type.Elem` on pointer kinds (the only kinds the code calls
it on); other descriptors are returned as they are. -/
def Elem : GoType → GoType
  | ptr e => e
  | t => t

/-- The method `reflect.Type.String`, which is also what the verbs `%s` (on a
descriptor) and `%T` (on a value of that type) print. -/
def typeString : GoType → String
  | string => "string"
  | int => "int"
  | struct name _ => name
  | iface => "interface \x7b\x7d"
  | ptr e => "*" ++ e.typeString

end GoType

/-- Values a Go variable of one of the types above can hold. A pointer is either
a typed nil or points to a value; pointer identity is not part of the model. A
struct value lists its fields as (field name, field value), in declaration
order. A variable of type `interface{}` holds nil (`nilIface`) or a value
(`iface`); such a variable is met behind a pointer only, since an argument of
type `interface{}` is an `Option Value` and holds a value of a concrete type. -/
inductive Value
  | str (s : String)
  | int (n : Int)
  | struct (name : String) (fields : List (String × String))
  | nilIface
  | iface (held : Value)
  | nilPtr (elem : GoType)
  | ptr (pointee : Value)
  deriving DecidableEq, Repr

namespace Value

/-- The type of the variable that holds the value; for a value of a concrete
type this is its dynamic type (`reflect.TypeOf`). -/
def typ : Value → GoType
  | str _ => .string
  | int _ => .int
  | struct name fields => .struct name (fields.map Prod.fst)
  | nilIface => .iface
  | iface _ => .iface
  | nilPtr elem => .ptr elem
  | ptr pointee => .ptr pointee.typ

/-- The value reached by following every pointer level, or `none` when a nil
pointer is met on the way: the fields that a field-for-field comparison looks at. -/
def base : Value → Option Value
  | nilPtr _ => none
  | ptr pointee => pointee.base
  | v => some v

end Value

/-- The zero value of a type. -/
def zero : GoType → Value
  | .string => .str ""
  | .int => .int 0
  | .struct name fields => .struct name (fields.map fun f => (f, ""))
  | .iface => .nilIface
  | .ptr elem => .nilPtr elem

/-- The value of `reflect.New(typ).Interface()`: a non-nil pointer to a fresh
zero value of `typ`. -/
def New (typ : GoType) : Value :=
  .ptr (zero typ)

/-- Go error values. `Errorf` is an error built by `perrors.Errorf` in json.go
(the TypeMismatch errors of the specification), `NilError` is the sentinel
`hessian2.NilError`, `other` is any error value produced by a collaborator. -/
inductive GoError
  | Errorf (msg : String)
  | NilError
  | other (msg : String)
  deriving DecidableEq, Repr

/-- What the verb `%T` prints for an `interface{}` operand. -/
def fmtT : Option Value → String
  | none => "<nil>"
  | some v => v.typ.typeString

/-- The type assertion `obj.(string)`: it holds when the dynamic type of `obj` is
the predeclared type `string`, and never for the nil interface. -/
def assertString : Option Value → Option String
  | some (.str s) => some s
  | _ => none

/-- The type assertion `obj.(hessian.Object)`: it holds when `obj` is not the nil
interface and its dynamic type satisfies the interface; `implementsObject` tells
which types do. -/
def assertObject (implementsObject : GoType → Bool) : Option Value → Option Value
  | none => none
  | some v => if implementsObject v.typ then some v else none

/-- The call `json.Unmarshal(data, v)`. The target `v` has to be a non-nil pointer;
`decode data cur` is the content of the pointed-to variable after `data` has been
decoded into a variable that held `cur`, or the decoding error. -/
def Unmarshal (decode : String → Value → Except GoError Value) (data : String) (v : Value) :
    Except GoError Value :=
  match v with
  | .ptr cur =>
    match decode data cur with
    | .ok cur1 => .ok (.ptr cur1)
    | .error err => .error err
  | _ => .error (.other "json: Unmarshal(non-pointer or nil)")

/-! ## The functions of json.go -/

/-- JsonGeneralizer.Generalize (json.go, lines 47-59). -/
def Generalize (implementsObject : GoType → Bool) (Marshal : Value → Except GoError String)
    (obj : Option Value) : Option Value × Option GoError :=
  match assertObject implementsObject obj with
  | none =>
    (none, some (.Errorf ("unexpected type of obj(=" ++ fmtT obj ++ "), wanted is hessian object")))
  | some newObj =>
    match Marshal newObj with
    | .error err => (none, some err)
    | .ok jsonbytes => (some (.str jsonbytes), none)

/-- The loop `for typ.Kind() == reflect.Ptr { typ = typ.Elem() }` of Realize
(json.go, lines 68-70), returning the final value of `typ`. -/
def unwrapPtr : GoType → GoType
  | .ptr elem => unwrapPtr elem
  | typ => typ

/-- JsonGeneralizer.Realize (json.go, lines 61-84). The descriptor `typ` is a
non-nil `reflect.Type`. -/
def Realize (implementsObject : GoType → Bool) (decode : String → Value → Except GoError Value)
    (obj : Option Value) (typ : GoType) : Option Value × Option GoError :=
  match assertString obj with
  | none =>
    (none, some (.Errorf ("unexpected type of obj(=" ++ fmtT obj ++ "), wanted is string")))
  | some jsonbytes =>
    let typ := unwrapPtr typ
    match assertObject implementsObject (some (New typ)) with
    | none =>
      (none, some (.Errorf ("the type of obj(=" ++ typ.typeString ++ ") should be hessian object")))
    | some ret =>
      match Unmarshal decode jsonbytes ret with
      | .error err => (none, some err)
      | .ok ret1 => (some ret1, none)

/-- The results of GetType, with the messages it hands to `logger.Debugf`. -/
structure TypeName where
  typ : String
  err : Option GoError
  debug : List String
  deriving DecidableEq, Repr

/-- JsonGeneralizer.GetType (json.go, lines 86-101). `typ` and `err` are the named
results; every `return` of the source is a bare return of their current values. -/
def GetType (GetJavaName : Option Value → String × Option GoError) (obj : Option Value) :
    TypeName :=
  let (typ, err) := GetJavaName obj
  if err = none ∨ err ≠ some .NilError then
    ⟨typ, err, []⟩
  else
    let typ := "java.lang.Object"
    if err = some .NilError then
      ⟨typ, err, ["the type of nil object couldn't be inferred, use the default value(\"" ++
        typ ++ "\")"]⟩
    else
      ⟨typ, err, ["the type of object(=" ++ fmtT obj ++
        ") couldn't be recognized as a POJO, use the default value(\"" ++ typ ++ "\")"]⟩

/-! ## Sample descriptors, values and collaborators -/

/-- The descriptor built by wrapping `typ` in `n` levels of pointer indirection. -/
def wrapPtr : Nat → GoType → GoType
  | 0, typ => typ
  | n + 1, typ => .ptr (wrapPtr n typ)

/-- The shape `Pojo{Name string}`. -/
def Pojo : GoType :=
  .struct "generalizer.Pojo" ["Name"]

/-- The shape `secret{name string}`, whose only field is not exported. -/
def secret : GoType :=
  .struct "generalizer.secret" ["name"]

/-- The object `&Pojo{Name: "a"}`. -/
def pojoA : Value :=
  .ptr (.struct "generalizer.Pojo" [("Name", "a")])

/-- The object `&secret{name: "x"}`. -/
def secretX : Value :=
  .ptr (.struct "generalizer.secret" [("name", "x")])

/-- A capability every type has: an interface without methods, which is how
dubbo-go-hessian2 declares it (`type Object interface{}`). -/
def anyType : GoType → Bool :=
  fun _ => true

/-- Some rows of `json.Marshal`: a struct encodes as an object with one member per
exported field, a pointer as what it points to, a nil pointer as `null`. Any other
argument is outside the rows and is reported as such. -/
def sampleMarshal : Value → Except GoError String
  | .ptr (.struct "generalizer.Pojo" [("Name", "a")]) => .ok "\x7b\"Name\":\"a\"\x7d"
  | .ptr (.struct "generalizer.secret" [("name", _)]) => .ok "\x7b\x7d"
  | .nilPtr _ => .ok "null"
  | _ => .error (.other "json: outside the sample rows")

/-- Some rows of the decoding step of `json.Unmarshal`, by document:
`not-json` is a syntax error; `null` and the empty object leave a struct as it is;
the object with the single member `Name` sets the field `Name` of a `Pojo`; the
object with the single member `Other`, which names no field of `Pojo`, is skipped
over and leaves a `Pojo` as it is; the JSON string `"a"` is stored in a variable of
type `interface{}` as the Go string `a`. Any other argument is outside the rows and
is reported as such. -/
def sampleDecode (data : String) (cur : Value) : Except GoError Value :=
  if data = "not-json" then
    .error (.other "invalid character 'o' in literal null (expecting 'u')")
  else
    match cur with
    | .struct name fields =>
      if data = "null" ∨ data = "\x7b\x7d" then .ok (.struct name fields)
      else if data = "\x7b\"Name\":\"a\"\x7d" ∧ name = "generalizer.Pojo" ∧
          fields.map Prod.fst = ["Name"] then
        .ok (.struct name [("Name", "a")])
      else if data = "\x7b\"Other\":\"b\"\x7d" ∧ name = "generalizer.Pojo" ∧
          fields.map Prod.fst = ["Name"] then
        .ok (.struct name fields)
      else .error (.other "json: outside the sample rows")
    | .nilIface =>
      if data = "\"a\"" then .ok (.iface (.str "a"))
      else .error (.other "json: outside the sample rows")
    | _ => .error (.other "json: outside the sample rows")

/-- Modelled from the spec: `hessian2.GetJavaName`, the type-name resolver of the
package protocol/dubbo/hessian2, which is not among the sources. Its contract is
three-way: a name and a nil error on success, the sentinel `NilError` when the
object is nil, another error when a non-nil object cannot be resolved. `classify`
is the naming table of the resolver. -/
def GetJavaName (classify : Value → Option String) : Option Value → String × Option GoError
  | none => ("", some .NilError)
  | some v =>
    match classify v with
    | some name => (name, none)
    | none => ("", some (.other "resolution failed"))

/-- A naming table that knows strings only. -/
def stringsOnly : Value → Option String
  | .str _ => some "java.lang.String"
  | _ => none

/-! ## Auxiliary facts -/

theorem typ_zero (t : GoType) : (zero t).typ = t := by
  cases t <;> simp [zero, Value.typ, Function.comp_def]

theorem typ_New (t : GoType) : (New t).typ = .ptr t := by
  simp [New, Value.typ, typ_zero]

/-- The recursive definition of `unwrapPtr` is the loop of the source: while the
kind is `Ptr`, step to the element type. -/
theorem unwrapPtr_loop (t : GoType) :
    unwrapPtr t = if t.Kind = .Ptr then unwrapPtr t.Elem else t := by
  cases t <;> simp [unwrapPtr, GoType.Kind, GoType.Elem]

theorem unwrapPtr_of_not_Ptr (t : GoType) (h : t.Kind ≠ .Ptr) : unwrapPtr t = t := by
  cases t <;> simp_all [unwrapPtr, GoType.Kind]

theorem Kind_unwrapPtr (t : GoType) : (unwrapPtr t).Kind ≠ .Ptr := by
  induction t <;> simp_all [unwrapPtr, GoType.Kind]

theorem unwrapPtr_wrapPtr (n : Nat) (t : GoType) : unwrapPtr (wrapPtr n t) = unwrapPtr t := by
  induction n with
  | zero => rfl
  | succ k ih => simpa [wrapPtr, unwrapPtr] using ih

/-- Realize looks at its descriptor only through `unwrapPtr`. -/
theorem Realize_congr (impl : GoType → Bool) (decode : String → Value → Except GoError Value)
    (obj : Option Value) (t1 t2 : GoType) (h : unwrapPtr t1 = unwrapPtr t2) :
    Realize impl decode obj t1 = Realize impl decode obj t2 := by
  simp only [Realize, h]

/-- On a string wire value Realize is: unwrap, instantiate, check, decode. -/
theorem Realize_str (impl : GoType → Bool) (decode : String → Value → Except GoError Value)
    (w : String) (typ : GoType) :
    Realize impl decode (some (.str w)) typ =
      if impl (.ptr (unwrapPtr typ)) then
        match decode w (zero (unwrapPtr typ)) with
        | .ok cur1 => (some (.ptr cur1), none)
        | .error err => (none, some err)
      else
        (none, some (.Errorf ("the type of obj(=" ++ (unwrapPtr typ).typeString ++
          ") should be hessian object"))) := by
  simp only [Realize, assertString, assertObject, typ_New]
  by_cases hc : impl (.ptr (unwrapPtr typ)) = true
  · simp only [hc, if_true, New, Unmarshal]
    cases decode w (zero (unwrapPtr typ)) <;> rfl
  · simp [hc]

/-- The error result of GetType is always the error of the resolver. -/
theorem GetType_err (resolver : Option Value → String × Option GoError) (obj : Option Value) :
    (GetType resolver obj).err = (resolver obj).2 := by
  unfold GetType
  rcases resolver obj with ⟨t, e⟩
  dsimp only
  split
  · rfl
  · split <;> rfl

/-- The message of the last branch of GetType (json.go, line 99) is never logged. -/
theorem GetType_debug (resolver : Option Value → String × Option GoError) (obj : Option Value) :
    (GetType resolver obj).debug = [] ∨
      (GetType resolver obj).debug =
        ["the type of nil object couldn't be inferred, use the default value(\"java.lang.Object\")"] := by
  unfold GetType
  rcases resolver obj with ⟨t, e⟩
  dsimp only
  split
  · exact Or.inl rfl
  · rename_i h
    have he : e = some .NilError := by
      by_contra hne
      exact h (Or.inr hne)
    subst he
    right
    simp

theorem base_base (o b : Value) (h : o.base = some b) : b.base = some b := by
  induction o with
  | nilPtr elem => simp [Value.base] at h
  | ptr pointee ih => exact ih (by simpa [Value.base] using h)
  | _ => simp [Value.base] at h; subst h; rfl

/-- The sample decoder does not change the Go type of the variable it decodes into. -/
theorem sampleDecode_typ (d : String) (cur cur1 : Value) (h : sampleDecode d cur = .ok cur1) :
    cur1.typ = cur.typ := by
  unfold sampleDecode at h
  split at h
  · cases h
  · split at h
    · split at h
      · cases h; rfl
      · split at h
        · rename_i hrow
          cases h
          simp [Value.typ, hrow.2.2]
        · split at h
          · cases h; rfl
          · cases h
    · split at h
      · cases h; rfl
      · cases h
    · cases h

/-! ## GetType -/

/-- C9: when the resolver succeeds with name `s`, GetType returns `s` and a nil
error: the resolved name is passed through, the fallback is not substituted, and
nothing is logged. -/
theorem GetType_resolved (resolver : Option Value → String × Option GoError)
    (obj : Option Value) (s : String) (h : resolver obj = (s, none)) :
    GetType resolver obj = ⟨s, none, []⟩ := by
  simp [GetType, h]

theorem GetType_resolved_witness :
    GetJavaName stringsOnly (some (.str "hi")) = ("java.lang.String", none) ∧
      GetType (GetJavaName stringsOnly) (some (.str "hi")) = ⟨"java.lang.String", none, []⟩ :=
  ⟨rfl, GetType_resolved (GetJavaName stringsOnly) (some (.str "hi")) "java.lang.String" rfl⟩

/-- C1, as stated, fails: for the non-nil object `&secret{name: "x"}`, which the
resolver fails on with an error other than NilError, GetType does not return
("java.lang.Object", nil); it returns the error of the resolver. -/
theorem GetType_unrecognized_counterexample :
    (GetJavaName stringsOnly (some secretX)).2 = some (.other "resolution failed") ∧
      GoError.other "resolution failed" ≠ .NilError ∧
      GetType (GetJavaName stringsOnly) (some secretX) =
        ⟨"", some (.other "resolution failed"), []⟩ ∧
      ¬ ((GetType (GetJavaName stringsOnly) (some secretX)).typ = "java.lang.Object" ∧
          (GetType (GetJavaName stringsOnly) (some secretX)).err = none) := by
  decide

/-- C1, amended: when the resolver fails on an object with an error `e` other
than NilError, the error result of GetType is `e`: the failure is handed to the
caller. -/
theorem GetType_passes_error (resolver : Option Value → String × Option GoError)
    (obj : Option Value) (t : String) (e : GoError) (h : resolver obj = (t, some e))
    (_hne : e ≠ .NilError) :
    (GetType resolver obj).err = some e := by
  simp [GetType_err, h]

theorem GetType_passes_error_witness :
    (GetType (GetJavaName stringsOnly) (some (.int 7))).err = some (.other "resolution failed") :=
  GetType_passes_error (GetJavaName stringsOnly) (some (.int 7)) "" (.other "resolution failed")
    rfl (by decide)

/-- C2, as stated, fails: GetType(nil) returns the fallback name, but its error
result is the NilError sentinel, not nil. -/
theorem GetType_nil_counterexample :
    GetJavaName stringsOnly none = ("", some .NilError) ∧
      GetType (GetJavaName stringsOnly) none ≠
        ⟨"java.lang.Object", none, (GetType (GetJavaName stringsOnly) none).debug⟩ ∧
      (GetType (GetJavaName stringsOnly) none).err ≠ none := by
  decide

/-- C2, amended: when the resolver signals NilError, GetType returns the fallback
name "java.lang.Object", leaves the NilError sentinel in the error result, and
logs that the type of a nil object could not be inferred. -/
theorem GetType_NilError (resolver : Option Value → String × Option GoError)
    (obj : Option Value) (t : String) (h : resolver obj = (t, some .NilError)) :
    GetType resolver obj =
      ⟨"java.lang.Object", some .NilError,
        ["the type of nil object couldn't be inferred, use the default value(\"java.lang.Object\")"]⟩ := by
  simp [GetType, h]

theorem GetType_NilError_witness :
    GetType (GetJavaName stringsOnly) none =
      ⟨"java.lang.Object", some .NilError,
        ["the type of nil object couldn't be inferred, use the default value(\"java.lang.Object\")"]⟩ :=
  GetType_NilError (GetJavaName stringsOnly) none "" rfl

/-! ## Generalize -/

/-- C5: for an object that lacks the capability (the nil interface, or a value
whose dynamic type does not satisfy `hessian.Object`), Generalize returns no wire
value and the error built from the object's runtime type, whatever the JSON
encoder is: the encoder is not consulted. -/
theorem Generalize_rejects (impl : GoType → Bool) (Marshal : Value → Except GoError String)
    (obj : Option Value) (h : ∀ v, obj = some v → impl v.typ = false) :
    Generalize impl Marshal obj =
        (none, some (.Errorf ("unexpected type of obj(=" ++ fmtT obj ++
          "), wanted is hessian object"))) ∧
      ∀ Marshal2 : Value → Except GoError String,
        Generalize impl Marshal2 obj = Generalize impl Marshal obj := by
  have hno : assertObject impl obj = none := by
    cases obj with
    | none => rfl
    | some v => simp [assertObject, h v rfl]
  constructor
  · simp only [Generalize, hno]
  · intro Marshal2
    simp only [Generalize, hno]

theorem Generalize_rejects_witness :
    Generalize anyType sampleMarshal none =
        (none, some (.Errorf "unexpected type of obj(=<nil>), wanted is hessian object")) ∧
      ∀ Marshal2 : Value → Except GoError String,
        Generalize anyType Marshal2 none = Generalize anyType sampleMarshal none :=
  Generalize_rejects anyType sampleMarshal none (by intro v hv; cases hv)

/-! ## Realize -/

/-- C7: for a wire value that is not a string, Realize returns no object and the
error built from the wire value's runtime type; the result mentions neither the
descriptor, nor the capability, nor the decoder, so it is the same for every
descriptor. -/
theorem Realize_rejects_wire (impl : GoType → Bool)
    (decode : String → Value → Except GoError Value) (obj : Option Value) (typ : GoType)
    (h : ∀ w, obj ≠ some (.str w)) :
    Realize impl decode obj typ =
        (none, some (.Errorf ("unexpected type of obj(=" ++ fmtT obj ++ "), wanted is string"))) ∧
      ∀ typ2 : GoType, Realize impl decode obj typ2 = Realize impl decode obj typ := by
  have hno : assertString obj = none := by
    unfold assertString
    split
    · rename_i w
      exact absurd rfl (h w)
    · rfl
  constructor
  · simp only [Realize, hno]
  · intro typ2
    simp only [Realize, hno]

theorem Realize_rejects_wire_witness :
    Realize anyType sampleDecode (some (.int 3)) (.ptr Pojo) =
        (none, some (.Errorf "unexpected type of obj(=int), wanted is string")) ∧
      ∀ typ2 : GoType, Realize anyType sampleDecode (some (.int 3)) typ2 =
        Realize anyType sampleDecode (some (.int 3)) (.ptr Pojo) :=
  Realize_rejects_wire anyType sampleDecode (some (.int 3)) (.ptr Pojo)
    (by intro w hw; cases hw)

/-- C4: for a base shape `T` that is not a pointer and any number `n` of pointer
levels wrapped around it, the unwrapping loop ends at `T`, and Realize gives the
same outcome for the wrapped descriptor as for `T`, for every wire value. -/
theorem Realize_indirection (impl : GoType → Bool)
    (decode : String → Value → Except GoError Value) (obj : Option Value) (T : GoType) (n : Nat)
    (hT : T.Kind ≠ .Ptr) :
    unwrapPtr (wrapPtr n T) = T ∧
      Realize impl decode obj (wrapPtr n T) = Realize impl decode obj T := by
  constructor
  · rw [unwrapPtr_wrapPtr, unwrapPtr_of_not_Ptr T hT]
  · exact Realize_congr impl decode obj _ _ (unwrapPtr_wrapPtr n T)

theorem Realize_indirection_witness :
    unwrapPtr (.ptr (.ptr Pojo)) = Pojo ∧
      Realize anyType sampleDecode (some (.str "\x7b\"Name\":\"a\"\x7d")) (.ptr (.ptr Pojo)) =
        Realize anyType sampleDecode (some (.str "\x7b\"Name\":\"a\"\x7d")) Pojo :=
  Realize_indirection anyType sampleDecode (some (.str "\x7b\"Name\":\"a\"\x7d")) Pojo 2
    (by decide)

/-- C8, as stated, fails: the document with the single member `Other` does not fit
the shape `Pojo{Name string}`, and the fresh instance has the capability, yet
Realize does not fail: the decoder skips the member and Realize returns
`&Pojo{Name: ""}`. -/
theorem Realize_unfitting_counterexample :
    anyType (New (unwrapPtr (.ptr Pojo))).typ = true ∧
      Realize anyType sampleDecode (some (.str "\x7b\"Other\":\"b\"\x7d")) (.ptr Pojo) =
        (some (.ptr (.struct "generalizer.Pojo" [("Name", "")])), none) := by
  decide

/-- C8, amended: for every string wire value and every descriptor whose fresh
instance has the capability, the outcome of Realize is that of the decoder on the
fresh zero value of the base shape: when the decoder reports an error, Realize
returns no object and that error; when the decoder accepts the document, Realize
returns a pointer to the decoded content and a nil error. -/
theorem Realize_decode_outcome (impl : GoType → Bool)
    (decode : String → Value → Except GoError Value) (w : String) (S : GoType)
    (hcap : impl (New (unwrapPtr S)).typ = true) :
    (∀ e, decode w (zero (unwrapPtr S)) = .error e →
        Realize impl decode (some (.str w)) S = (none, some e)) ∧
      (∀ cur1, decode w (zero (unwrapPtr S)) = .ok cur1 →
        Realize impl decode (some (.str w)) S = (some (.ptr cur1), none)) := by
  rw [typ_New] at hcap
  constructor
  · intro e hdec
    rw [Realize_str]
    simp [hcap, hdec]
  · intro cur1 hdec
    rw [Realize_str]
    simp [hcap, hdec]

theorem Realize_decode_outcome_witness :
    anyType (New (unwrapPtr (.ptr Pojo))).typ = true ∧
      Realize anyType sampleDecode (some (.str "not-json")) (.ptr Pojo) =
        (none, some (.other "invalid character 'o' in literal null (expecting 'u')")) :=
  ⟨rfl, (Realize_decode_outcome anyType sampleDecode "not-json" (.ptr Pojo) rfl).1
    (.other "invalid character 'o' in literal null (expecting 'u')")
    (by simp [sampleDecode])⟩

/-- C10: whenever Realize succeeds (its error result is nil), the object it
returns is a non-nil pointer whose type is exactly one pointer level above the
base shape of the descriptor, and the base shape is not itself a pointer. The
decoder is assumed to keep the Go type of the variable it decodes into. -/
theorem Realize_result_type (impl : GoType → Bool)
    (decode : String → Value → Except GoError Value) (obj : Option Value) (typ : GoType)
    (hdec : ∀ d cur cur1, decode d cur = .ok cur1 → cur1.typ = cur.typ)
    (h : (Realize impl decode obj typ).2 = none) :
    ∃ cur1, Realize impl decode obj typ = (some (.ptr cur1), none) ∧
      (Value.ptr cur1).typ = .ptr (unwrapPtr typ) ∧ (unwrapPtr typ).Kind ≠ .Ptr := by
  cases obj with
  | none => simp [Realize, assertString] at h
  | some v =>
    cases v with
    | str w =>
      rw [Realize_str] at h ⊢
      by_cases hc : impl (.ptr (unwrapPtr typ)) = true
      · simp only [hc, if_true] at h ⊢
        cases hd : decode w (zero (unwrapPtr typ)) with
        | error err => simp [hd] at h
        | ok cur1 =>
          refine ⟨cur1, rfl, ?_, Kind_unwrapPtr typ⟩
          simp [Value.typ, hdec w _ cur1 hd, typ_zero]
      · simp [hc] at h
    | _ => simp [Realize, assertString] at h

theorem Realize_result_type_witness :
    ∃ cur1, Realize anyType sampleDecode (some (.str "\x7b\"Name\":\"a\"\x7d")) (.ptr (.ptr Pojo)) =
        (some (.ptr cur1), none) ∧
      (Value.ptr cur1).typ = .ptr (unwrapPtr (.ptr (.ptr Pojo))) ∧
      (unwrapPtr (.ptr (.ptr Pojo))).Kind ≠ .Ptr :=
  Realize_result_type anyType sampleDecode (some (.str "\x7b\"Name\":\"a\"\x7d"))
    (.ptr (.ptr Pojo)) sampleDecode_typ (by decide)

/-! ## Generalize followed by Realize -/

/-- C3, as stated, fails: `&secret{name: "x"}` has the capability and its JSON
encoding succeeds (the field is not exported, so the document is the empty
object), yet Realize of the generalized value returns `&secret{name: ""}`, whose
field differs from the original. -/
theorem roundtrip_counterexample :
    assertObject anyType (some secretX) = some secretX ∧
      Generalize anyType sampleMarshal (some secretX) = (some (.str "\x7b\x7d"), none) ∧
      Realize anyType sampleDecode (Generalize anyType sampleMarshal (some secretX)).1 secretX.typ =
        (some (.ptr (.struct "generalizer.secret" [("name", "")])), none) ∧
      (Value.ptr (.struct "generalizer.secret" [("name", "")])).base ≠ secretX.base := by
  refine ⟨by decide, by decide, by decide, by decide⟩

/-- C3, amended: let `o` be an object of shape `T` (the type of `o`) such that `o`
and the fresh instance of the base shape of `T` have the capability, the JSON
encoding of `o` succeeds with document `s`, and decoding `s` into a fresh zero
value of the base shape gives back the value `b` that `o` denotes. Then Generalize
yields the wire value `s`, and Realize of it at `T` succeeds with a pointer to `b`,
which is equal to `o` field for field. -/
theorem Realize_Generalize (impl : GoType → Bool) (Marshal : Value → Except GoError String)
    (decode : String → Value → Except GoError Value) (o : Value) (s : String) (b : Value)
    (hcap : impl o.typ = true) (hnew : impl (New (unwrapPtr o.typ)).typ = true)
    (henc : Marshal o = .ok s) (hb : o.base = some b)
    (hrt : decode s (zero (unwrapPtr o.typ)) = .ok b) :
    Generalize impl Marshal (some o) = (some (.str s), none) ∧
      Realize impl decode (Generalize impl Marshal (some o)).1 o.typ = (some (.ptr b), none) ∧
      (Value.ptr b).base = o.base := by
  have hg : Generalize impl Marshal (some o) = (some (.str s), none) := by
    simp [Generalize, assertObject, hcap, henc]
  rw [typ_New] at hnew
  refine ⟨hg, ?_, ?_⟩
  · rw [hg, Realize_str]
    simp [hnew, hrt]
  · rw [hb]
    exact base_base o b hb

theorem Realize_Generalize_witness :
    Generalize anyType sampleMarshal (some pojoA) =
        (some (.str "\x7b\"Name\":\"a\"\x7d"), none) ∧
      Realize anyType sampleDecode (Generalize anyType sampleMarshal (some pojoA)).1 pojoA.typ =
        (some (.ptr (.struct "generalizer.Pojo" [("Name", "a")])), none) ∧
      (Value.ptr (.struct "generalizer.Pojo" [("Name", "a")])).base = pojoA.base :=
  Realize_Generalize anyType sampleMarshal sampleDecode pojoA
    "\x7b\"Name\":\"a\"\x7d" (.struct "generalizer.Pojo" [("Name", "a")])
    rfl rfl rfl rfl (by simp [sampleDecode, zero, unwrapPtr, pojoA, Value.typ])

end Generalizer
